import Mathlib

/-!
Shallow embedding of the `ddns` Cloudflare Worker (src/index.ts, src/pushNtfy.ts).

The worker is a single-pass pipeline: credential extraction
(`constructClientOptions`), parameter extraction (`constructDNSRecord`) and
the update orchestrator (`updateHostnames`), wrapped by a top-level `fetch`
handler that maps thrown `HttpError`s to responses and everything else to a
500 "Internal Server Error".

The Cloudflare provider is external; its behaviour for the request's
credentials is modelled by a `CFWorld` record (verify-token result, zone
list, per-call record-list results, update results, notification fetch
result).  Every provider interaction is additionally recorded in an explicit
`CallEvent` trace so that ordering, short-circuiting and frame properties
are statable.
-/

/-! ### JavaScript modelling helpers -/

/-- Truthiness of `headers.get`/`searchParams.get` results: JavaScript treats
both `null` (absent) and the empty string as falsy. -/
def jsFalsy : Option String → Bool
  | none => true
  | some s => s == ""

/-- The JavaScript `a || b` idiom on nullable strings. -/
def jsOr (a b : Option String) : Option String :=
  if jsFalsy a then b else a

/-- Split a character list at every occurrence of `sep` (the groups between
separators, in order; empty groups are kept). -/
def splitChar (sep : Char) : List Char → List (List Char)
  | [] => [[]]
  | c :: rest =>
    match splitChar sep rest with
    | [] => [[c]]
    | g :: gs => if c = sep then [] :: g :: gs else (c :: g) :: gs

/-- JavaScript `String.prototype.split` with a single-character separator
(`"".split(sep)` is `[""]`, adjacent separators yield empty pieces). -/
def jsSplit (s : String) (sep : Char) : List String :=
  (splitChar sep s.toList).map String.mk

/-- Whitespace stripped by JavaScript `String.prototype.trim` (ECMAScript
WhiteSpace and LineTerminator code points). -/
def isJsSpace (c : Char) : Bool :=
  let n := c.toNat
  (9 ≤ n && n ≤ 13) || n == 32 || n == 160 || n == 5760 ||
  (8192 ≤ n && n ≤ 8202) || n == 8232 || n == 8233 || n == 8239 ||
  n == 8287 || n == 12288 || n == 65279

/-- JavaScript `String.prototype.trim`. -/
def jsTrim (s : String) : String :=
  String.mk (((s.toList.dropWhile isJsSpace).reverse.dropWhile isJsSpace).reverse)

/-- JavaScript `String.prototype.includes` with a single-character needle. -/
def includesChar (s : String) (c : Char) : Bool :=
  s.toList.contains c

instance {ε α : Type} [DecidableEq ε] [DecidableEq α] : DecidableEq (Except ε α) := fun x y =>
  match x, y with
  | Except.error a, Except.error b =>
    if h : a = b then isTrue (by rw [h]) else isFalse (by intro hc; cases hc; exact h rfl)
  | Except.ok a, Except.ok b =>
    if h : a = b then isTrue (by rw [h]) else isFalse (by intro hc; cases hc; exact h rfl)
  | Except.error _, Except.ok _ => isFalse (by intro hc; cases hc)
  | Except.ok _, Except.error _ => isFalse (by intro hc; cases hc)

/-- The base64 alphabet, in value order. -/
def base64Chars : List Char :=
  "ABCDEFGHIJKLMNOPQRSTUVWXYZabcdefghijklmnopqrstuvwxyz0123456789+/".toList

/-- Value of a base64 digit, or `none` for a character outside the alphabet. -/
def b64Val (c : Char) : Option Nat :=
  let i := base64Chars.indexOf c
  if i < 64 then some i else none

/-- Decode a list of 6-bit values into bytes (a final group of one value is
invalid; groups of two or three values yield one or two bytes). -/
def b64DecodeChunks : List Nat → Option (List Nat)
  | [] => some []
  | [_] => none
  | [a, b] => some [a * 4 + b / 16]
  | [a, b, c] => some [a * 4 + b / 16, (b % 16) * 16 + c / 4]
  | a :: b :: c :: d :: rest => do
      let tail ← b64DecodeChunks rest
      pure ([a * 4 + b / 16, (b % 16) * 16 + c / 4, (c % 4) * 64 + d] ++ tail)

/-- Strip one or two trailing `=` padding characters. -/
def b64StripPad (cs : List Char) : List Char :=
  match cs.reverse with
  | '=' :: '=' :: rest => rest.reverse
  | '=' :: rest => rest.reverse
  | _ => cs

/-- ASCII whitespace, which forgiving-base64 ignores. -/
def isB64Whitespace (c : Char) : Bool :=
  c == ' ' || c == '\t' || c == '\n' || c == '\x0d' || c == '\x0c'

/-- The `atob` builtin (WHATWG forgiving-base64 decode): `none` models the
`InvalidCharacterError` it throws on undecodable input; on success the bytes
are returned as a string of code points below 256. -/
def atob (s : String) : Option String := do
  let cs := s.toList.filter (fun c => !isB64Whitespace c)
  let cs := if cs.length % 4 == 0 then b64StripPad cs else cs
  if cs.length % 4 == 1 then none
  else
    let vals ← cs.mapM b64Val
    let bytes ← b64DecodeChunks vals
    pure (String.mk (bytes.map Char.ofNat))

/-! ### Errors, requests, responses -/

/-- A thrown value: either the worker's `HttpError` (status code plus
message) or any other exception (transport failures, `atob` errors, ...),
which the top-level handler turns into a generic 500. -/
inductive WorkerError where
  | httpError (statusCode : Nat) (message : String)
  | unexpected (message : String)
deriving DecidableEq

/-- An HTTP response: body string and status code. -/
structure Response where
  body : String
  status : Nat
deriving DecidableEq

/-- The parts of the incoming request the worker reads: two headers and the
four query parameters.  `none` models an absent header/parameter. -/
structure Request where
  authorization : Option String
  cfConnectingIP : Option String
  ipParam : Option String
  myipParam : Option String
  hostnamesParam : Option String
  hostnameParam : Option String
deriving DecidableEq

/-- Credentials handed to the Cloudflare client. -/
structure ClientOptions where
  apiEmail : String
  apiToken : String
deriving DecidableEq

/-- Worker environment bindings (wrangler `Env`). -/
structure Env where
  NTFY_URL : Option String

/-- Control characters rejected by the credential check
(`/[\0-\x1F\x7F]/`). -/
def hasControlChar (s : String) : Bool :=
  s.toList.any (fun c => c.toNat ≤ 31 || c.toNat == 127)

/-- Embeds `constructClientOptions` from src/index.ts: reads the
Authorization header, splits off the second space-separated token,
base64-decodes it and splits the result at the first colon. -/
def constructClientOptions (request : Request) : Except WorkerError ClientOptions :=
  let authHeader := request.authorization
  if jsFalsy authHeader then
    Except.error (WorkerError.httpError 401 "API Token missing.")
  else
    let token := (jsSplit (authHeader.getD "") ' ')[1]?
    if jsFalsy token then
      Except.error (WorkerError.httpError 401 "Invalid API Token.")
    else
      match atob (token.getD "") with
      | none => Except.error (WorkerError.unexpected "InvalidCharacterError")
      | some decoded =>
        match decoded.toList.findIdx? (fun c => c = ':') with
        | none => Except.error (WorkerError.httpError 401 "Invalid API Token.")
        | some delimiterIndex =>
          if hasControlChar decoded then
            Except.error (WorkerError.httpError 401 "Invalid API Token.")
          else
            Except.ok
              { apiEmail := String.mk (decoded.toList.take delimiterIndex)
                apiToken := String.mk (decoded.toList.drop (delimiterIndex + 1)) }

/-- A DNS record object as built by `constructDNSRecord` (an
`ARecord`/`AAAARecord` payload). -/
structure AddressableRecord where
  content : String
  name : String
  type : String
  ttl : Nat
deriving DecidableEq

/-- The ip-resolution half of `constructDNSRecord`: `ip` falling back to
`myip`, the missing-ip 422, and the `auto` → `CF-Connecting-IP`
substitution with its 500. -/
def resolveIp (request : Request) : Except WorkerError String :=
  let ip := jsOr request.ipParam request.myipParam
  if jsFalsy ip then
    Except.error (WorkerError.httpError 422 "Missing 'ip' parameter. Use ip=auto to use the client IP.")
  else if ip.getD "" = "auto" then
    let ip := request.cfConnectingIP
    if jsFalsy ip then
      Except.error (WorkerError.httpError 500 "ip=auto specified but client IP could not be determined.")
    else
      Except.ok (ip.getD "")
  else
    Except.ok (ip.getD "")

/-- The hostname-resolution half of `constructDNSRecord`: `hostnames`
falling back to `hostname`, split on commas, trimmed, empties dropped. -/
def resolveHostnames (request : Request) : Except WorkerError (List String) :=
  let hostnameParam := jsOr request.hostnamesParam request.hostnameParam
  if jsFalsy hostnameParam then
    Except.error (WorkerError.httpError 422 "Missing 'hostname' parameter.")
  else
    let hostnames := ((jsSplit (hostnameParam.getD "") ',').map jsTrim).filter
      (fun s => s != "")
    if hostnames.length = 0 then
      Except.error (WorkerError.httpError 422 "No hostnames provided.")
    else
      Except.ok hostnames

/-- Embeds `constructDNSRecord` from src/index.ts: resolve the ip (checked
first), then the hostname list, then build one record object per hostname
with the `.`-heuristic type. -/
def constructDNSRecord (request : Request) : Except WorkerError (List AddressableRecord) := do
  let ip ← resolveIp request
  let hostnames ← resolveHostnames request
  pure (hostnames.map (fun hostname =>
    { content := ip
      name := hostname
      type := if includesChar ip '.' then "A" else "AAAA"
      ttl := 1 }))

/-! ### The Cloudflare provider and the orchestrator -/

/-- A zone as returned by `cloudflare.zones.list()`. -/
structure Zone where
  id : String
deriving DecidableEq

/-- A record object as returned by `cloudflare.dns.records.list` (`id`,
`proxied` and `comment` are optional in the client's types). -/
structure ListedRecord where
  id : Option String
  name : String
  type : String
  content : String
  proxied : Option Bool
  comment : Option String
deriving DecidableEq

/-- Provider behaviour for this request's credentials.  `Except.error`
results model rejected promises (transport/provider failures);
`listRecords` takes the `zone_id`, `name` and `type` call parameters. -/
structure CFWorld where
  verifyStatus : Except String String
  zonesResult : Except String (List Zone)
  listRecords : String → String → String → Except String (List ListedRecord)
  updateResult : String → String → Except String Unit
  ntfyFetchResult : Except String Unit

/-- One outbound call made by the worker, recorded in order. -/
inductive CallEvent where
  | verify
  | listZones
  | listRecords (zoneId : String) (name : String) (type : String)
  | updateRecord (id : Option String) (zoneId : String) (content : String)
      (name : String) (type : String) (proxied : Bool) (comment : Option String)
  | notify (message : String)
deriving DecidableEq

/-- Whether an event is a record update. -/
def CallEvent.isUpdate : CallEvent → Bool
  | CallEvent.updateRecord _ _ _ _ _ _ _ => true
  | _ => false

/-- Embeds `pushNtfy` from src/pushNtfy.ts: no-op when `NTFY_URL` is unset,
otherwise the notification fetch runs inside a try/catch that logs and
swallows any failure, so the function never throws. -/
def pushNtfy (message : String) (env : Env) (w : CFWorld) : Except WorkerError Unit :=
  if jsFalsy env.NTFY_URL then
    Except.ok ()
  else
    match w.ntfyFetchResult with
    | Except.error _ => Except.ok ()
    | Except.ok _ => Except.ok ()

/-- JavaScript truthiness of the optional `id` field: the code keeps only
records whose `id` is a non-empty string (`records.filter((rec) => rec.id)`). -/
def idTruthy : Option String → Bool
  | none => false
  | some s => s != ""

/-- The inner zone loop of `updateHostnames`: list records in each zone
filtered by the proposed record's name and type, keep those with a truthy
`id`, and aggregate the matches (paired with their zone id) across zones.
Returns the aggregated matches and the trace of list calls. -/
def gatherMatches (w : CFWorld) (newRecord : AddressableRecord) :
    List Zone → Except WorkerError (List (ListedRecord × String)) × List CallEvent
  | [] => (Except.ok [], [])
  | zone :: rest =>
    let ev := CallEvent.listRecords zone.id newRecord.name newRecord.type
    match w.listRecords zone.id newRecord.name newRecord.type with
    | Except.error e => (Except.error (WorkerError.unexpected e), [ev])
    | Except.ok records =>
      let these := (records.filter (fun rec => idTruthy rec.id)).map
        (fun rec => (rec, zone.id))
      ((gatherMatches w newRecord rest).1.map (fun ms => these ++ ms),
       ev :: (gatherMatches w newRecord rest).2)

/-- One iteration of the `for (const newRecord of newRecords)` loop: gather
matches, fail on zero or multiple candidates, otherwise update the unique
candidate (preserving `proxied` with default `false`, and `comment`) and
push the success notification. -/
def recordStep (w : CFWorld) (env : Env) (zones : List Zone)
    (newRecord : AddressableRecord) : Except WorkerError Unit × List CallEvent :=
  match gatherMatches w newRecord zones with
  | (Except.error e, t) => (Except.error e, t)
  | (Except.ok «matches», t) =>
    match «matches» with
    | [] =>
      (Except.error (WorkerError.httpError 400
        ("No matching record found for '" ++ newRecord.name ++ "'. Create it manually first.")), t)
    | [(record, zoneId)] =>
      let proxied := record.proxied.getD false
      let comment := record.comment
      let ev := CallEvent.updateRecord record.id zoneId newRecord.content
        newRecord.name newRecord.type proxied comment
      match w.updateResult zoneId (record.id.getD "") with
      | Except.error e => (Except.error (WorkerError.unexpected e), t ++ [ev])
      | Except.ok _ =>
        let successMsg := "DNS record for '" ++ newRecord.name ++ "' ('" ++
          newRecord.type ++ "') updated to '" ++ newRecord.content ++ "'"
        match pushNtfy successMsg env w with
        | Except.error e => (Except.error e, t ++ [ev, CallEvent.notify successMsg])
        | Except.ok _ => (Except.ok (), t ++ [ev, CallEvent.notify successMsg])
    | _ :: _ :: _ =>
      (Except.error (WorkerError.httpError 400
        ("Multiple matching records found for '" ++ newRecord.name ++ "'. Specify a unique hostname per zone.")), t)

/-- The `for` loop of `updateHostnames` over the proposed records, in input
order: a failing iteration aborts the whole loop immediately; if every
iteration succeeds the loop ends in the 200 "OK" response. -/
def updateLoop (w : CFWorld) (env : Env) (zones : List Zone) :
    List AddressableRecord → Except WorkerError Response × List CallEvent
  | [] => (Except.ok { body := "OK", status := 200 }, [])
  | newRecord :: rest =>
    match recordStep w env zones newRecord with
    | (Except.error e, t) => (Except.error e, t)
    | (Except.ok _, t) =>
      ((updateLoop w env zones rest).1, t ++ (updateLoop w env zones rest).2)

/-- Embeds `updateHostnames` from src/index.ts: verify the token (non-active
status → 401, transport failure propagates), list zones (empty → 400), then
run the per-record loop.  The `clientOptions` seed the provider client whose
behaviour `w` models. -/
def updateHostnames (clientOptions : ClientOptions)
    (newRecords : List AddressableRecord) (env : Env) (w : CFWorld) :
    Except WorkerError Response × List CallEvent :=
  match w.verifyStatus with
  | Except.error e => (Except.error (WorkerError.unexpected e), [CallEvent.verify])
  | Except.ok tokenStatus =>
    if tokenStatus ≠ "active" then
      (Except.error (WorkerError.httpError 401 ("API Token status: '" ++ tokenStatus ++ "'")),
       [CallEvent.verify])
    else
      match w.zonesResult with
      | Except.error e =>
        (Except.error (WorkerError.unexpected e), [CallEvent.verify, CallEvent.listZones])
      | Except.ok zones =>
        if zones.length = 0 then
          (Except.error (WorkerError.httpError 400 "No zones available in API Token."),
           [CallEvent.verify, CallEvent.listZones])
        else
          ((updateLoop w env zones newRecords).1,
           CallEvent.verify :: CallEvent.listZones :: (updateLoop w env zones newRecords).2)

/-- The top-level catch: an `HttpError` becomes a response with its own
status code and message; any other exception becomes a 500 "Internal Server
Error". -/
def errorResponse : WorkerError → Response
  | WorkerError.httpError statusCode message => { body := message, status := statusCode }
  | WorkerError.unexpected _ => { body := "Internal Server Error", status := 500 }

/-- Embeds the default `fetch` handler: run the pipeline inside the
try/catch. -/
def fetch (request : Request) (env : Env) (w : CFWorld) : Response × List CallEvent :=
  match constructClientOptions request with
  | Except.error err => (errorResponse err, [])
  | Except.ok clientOptions =>
    match constructDNSRecord request with
    | Except.error err => (errorResponse err, [])
    | Except.ok record =>
      match updateHostnames clientOptions record env w with
      | (Except.error err, t) => (errorResponse err, t)
      | (Except.ok resp, t) => (resp, t)

/-! ### Helper lemmas about the pipeline -/

theorem except_ok_bind {ε α β : Type} (a : α) (f : α → Except ε β) :
    (Except.ok a >>= f : Except ε β) = f a := rfl

theorem except_error_bind {ε α β : Type} (e : ε) (f : α → Except ε β) :
    ((Except.error e : Except ε α) >>= f) = Except.error e := rfl

theorem fetch_clientOptions_error (request : Request) (env : Env) (w : CFWorld)
    (e : WorkerError) (h : constructClientOptions request = Except.error e) :
    fetch request env w = (errorResponse e, []) := by
  simp [fetch, h]

theorem fetch_dnsRecord_error (request : Request) (env : Env) (w : CFWorld)
    (co : ClientOptions) (e : WorkerError)
    (h1 : constructClientOptions request = Except.ok co)
    (h2 : constructDNSRecord request = Except.error e) :
    fetch request env w = (errorResponse e, []) := by
  simp [fetch, h1, h2]

theorem fetch_update_result (request : Request) (env : Env) (w : CFWorld)
    (co : ClientOptions) (recs : List AddressableRecord)
    (h1 : constructClientOptions request = Except.ok co)
    (h2 : constructDNSRecord request = Except.ok recs) :
    fetch request env w =
      (match updateHostnames co recs env w with
       | (Except.error err, t) => (errorResponse err, t)
       | (Except.ok resp, t) => (resp, t)) := by
  simp [fetch, h1, h2]

theorem resolveIp_of_ipParam (request : Request) (v : String)
    (h : request.ipParam = some v) (h2 : v ≠ "") (h3 : v ≠ "auto") :
    resolveIp request = Except.ok v := by
  simp [resolveIp, jsOr, jsFalsy, h, h2, h3]

theorem resolveIp_of_myipParam (request : Request) (v : String)
    (h0 : request.ipParam = none) (h : request.myipParam = some v)
    (h2 : v ≠ "") (h3 : v ≠ "auto") :
    resolveIp request = Except.ok v := by
  simp [resolveIp, jsOr, jsFalsy, h0, h, h2, h3]

theorem constructDNSRecord_fields (request : Request) (ip : String)
    (recs : List AddressableRecord)
    (hip : resolveIp request = Except.ok ip)
    (hok : constructDNSRecord request = Except.ok recs) :
    ∀ rcd ∈ recs, rcd.content = ip ∧
      rcd.type = (if includesChar ip '.' then "A" else "AAAA") := by
  cases hh : resolveHostnames request with
  | error e => simp [constructDNSRecord, hip, hh, except_ok_bind, except_error_bind] at hok
  | ok hs =>
    simp [constructDNSRecord, hip, hh, except_ok_bind, except_error_bind] at hok
    subst hok
    intro rcd hr
    simp only [List.mem_map] at hr
    obtain ⟨h, _, rfl⟩ := hr
    exact ⟨rfl, rfl⟩

theorem resolveIp_auto_header (request : Request) (h : String)
    (hor : jsOr request.ipParam request.myipParam = some "auto")
    (hh : request.cfConnectingIP = some h) (hne : h ≠ "") :
    resolveIp request = Except.ok h := by
  simp [resolveIp, hor, jsFalsy, hh, hne]

theorem resolveHostnames_char (request : Request) (p : String)
    (hor : jsOr request.hostnamesParam request.hostnameParam = some p) (hp : p ≠ "") :
    resolveHostnames request =
      (if ((((jsSplit p ',').map jsTrim).filter (fun s => s != ""))).length = 0 then
        Except.error (WorkerError.httpError 422 "No hostnames provided.")
      else
        Except.ok (((jsSplit p ',').map jsTrim).filter (fun s => s != ""))) := by
  simp [resolveHostnames, hor, jsFalsy, hp]

/-! ### Claims C4, C5, C6, C7, C10 (the pure request-parsing pipeline) -/

/-- C4: IP resolution takes the `ip` query parameter, falling back to
`myip`; with neither present the request fails with 422 and the missing-ip
body; a resolved value of literally `auto` is replaced by the
`CF-Connecting-IP` header, and with that header absent the request fails
with 500 (not 422) and the auto-ip body. -/
theorem claim4 :
    (∀ (request : Request) (v : String) (recs : List AddressableRecord),
       request.ipParam = some v → v ≠ "" → v ≠ "auto" →
       constructDNSRecord request = Except.ok recs →
       ∀ rcd ∈ recs, rcd.content = v) ∧
    (∀ (request : Request) (v : String) (recs : List AddressableRecord),
       request.ipParam = none → request.myipParam = some v → v ≠ "" → v ≠ "auto" →
       constructDNSRecord request = Except.ok recs →
       ∀ rcd ∈ recs, rcd.content = v) ∧
    (∀ request : Request,
       request.ipParam = none → request.myipParam = none →
       constructDNSRecord request =
         Except.error (WorkerError.httpError 422
           "Missing 'ip' parameter. Use ip=auto to use the client IP.")) ∧
    (∀ (request : Request) (h : String) (recs : List AddressableRecord),
       jsOr request.ipParam request.myipParam = some "auto" →
       request.cfConnectingIP = some h → h ≠ "" →
       constructDNSRecord request = Except.ok recs →
       ∀ rcd ∈ recs, rcd.content = h) ∧
    (∀ request : Request,
       jsOr request.ipParam request.myipParam = some "auto" →
       request.cfConnectingIP = none →
       constructDNSRecord request =
         Except.error (WorkerError.httpError 500
           "ip=auto specified but client IP could not be determined.")) ∧
    (∀ (request : Request) (env : Env) (w : CFWorld) (co : ClientOptions) (e : WorkerError),
       constructClientOptions request = Except.ok co →
       constructDNSRecord request = Except.error e →
       (fetch request env w).1 = errorResponse e) := by
  refine ⟨?_, ?_, ?_, ?_, ?_, ?_⟩
  · intro request v recs h h2 h3 hok rcd hr
    exact (constructDNSRecord_fields request v recs
      (resolveIp_of_ipParam request v h h2 h3) hok rcd hr).1
  · intro request v recs h0 h h2 h3 hok rcd hr
    exact (constructDNSRecord_fields request v recs
      (resolveIp_of_myipParam request v h0 h h2 h3) hok rcd hr).1
  · intro request h1 h2
    simp [constructDNSRecord, resolveIp, jsOr, jsFalsy, h1, h2,
      except_ok_bind, except_error_bind]
  · intro request h recs hor hh hne hok rcd hr
    exact (constructDNSRecord_fields request h recs
      (resolveIp_auto_header request h hor hh hne) hok rcd hr).1
  · intro request hor hh
    simp [constructDNSRecord, resolveIp, hor, jsFalsy, hh,
      except_ok_bind, except_error_bind]
  · intro request env w co e h1 h2
    rw [fetch_dnsRecord_error request env w co e h1 h2]

/-- C4 witness: concrete requests exercise the missing-ip 422, the
auto-with-header substitution, the auto-without-header 500, and the 422
surfacing through `fetch`. -/
theorem claim4_witness :
    constructDNSRecord
      { authorization := some "Basic YTpi", cfConnectingIP := none,
        ipParam := none, myipParam := none,
        hostnamesParam := some "home.example.com", hostnameParam := none } =
      Except.error (WorkerError.httpError 422
        "Missing 'ip' parameter. Use ip=auto to use the client IP.") ∧
    ({ content := "198.51.100.7", name := "home.example.com", type := "A",
       ttl := 1 } : AddressableRecord).content = "198.51.100.7" ∧
    ({ content := "203.0.113.9", name := "home.example.com", type := "A",
       ttl := 1 } : AddressableRecord).content = "203.0.113.9" ∧
    ({ content := "2001:db8::1", name := "home.example.com", type := "AAAA",
       ttl := 1 } : AddressableRecord).content = "2001:db8::1" ∧
    constructDNSRecord
      { authorization := some "Basic YTpi", cfConnectingIP := none,
        ipParam := some "auto", myipParam := none,
        hostnamesParam := some "home.example.com", hostnameParam := none } =
      Except.error (WorkerError.httpError 500
        "ip=auto specified but client IP could not be determined.") ∧
    (fetch
      { authorization := some "Basic YTpi", cfConnectingIP := none,
        ipParam := none, myipParam := none,
        hostnamesParam := some "home.example.com", hostnameParam := none }
      { NTFY_URL := none }
      { verifyStatus := Except.ok "active", zonesResult := Except.ok [],
        listRecords := fun _ _ _ => Except.ok [],
        updateResult := fun _ _ => Except.ok (),
        ntfyFetchResult := Except.ok () }).1 =
      errorResponse (WorkerError.httpError 422
        "Missing 'ip' parameter. Use ip=auto to use the client IP.") := by
  refine ⟨?_, ?_, ?_, ?_, ?_, ?_⟩
  · exact claim4.2.2.1 _ rfl rfl
  · exact claim4.1
      { authorization := some "Basic YTpi", cfConnectingIP := none,
        ipParam := some "198.51.100.7", myipParam := none,
        hostnamesParam := some "home.example.com", hostnameParam := none }
      "198.51.100.7"
      [{ content := "198.51.100.7", name := "home.example.com", type := "A", ttl := 1 }]
      rfl (by decide) (by decide) rfl _ (by simp)
  · exact claim4.2.2.2.1
      { authorization := some "Basic YTpi", cfConnectingIP := some "203.0.113.9",
        ipParam := some "auto", myipParam := none,
        hostnamesParam := some "home.example.com", hostnameParam := none }
      "203.0.113.9"
      [{ content := "203.0.113.9", name := "home.example.com", type := "A", ttl := 1 }]
      rfl rfl (by decide) rfl _ (by simp)
  · exact claim4.2.1
      { authorization := some "Basic YTpi", cfConnectingIP := none,
        ipParam := none, myipParam := some "2001:db8::1",
        hostnamesParam := some "home.example.com", hostnameParam := none }
      "2001:db8::1"
      [{ content := "2001:db8::1", name := "home.example.com", type := "AAAA", ttl := 1 }]
      rfl rfl (by decide) (by decide) rfl _ (by simp)
  · exact claim4.2.2.2.2.1 _ rfl rfl
  · exact claim4.2.2.2.2.2 _ _ _ { apiEmail := "a", apiToken := "b" } _ rfl rfl

/-- C5: requests without an Authorization header get 401 "API Token
missing."; a header with no space-separated second token gets 401 "Invalid
API Token."; a decoded credential blob without a colon or containing a
control character (0x00-0x1F, 0x7F) gets the same 401; otherwise the
credentials are the text before the first colon and the remainder. -/
theorem claim5 :
    (∀ (request : Request) (env : Env) (w : CFWorld),
       request.authorization = none →
       (fetch request env w).1 = { body := "API Token missing.", status := 401 }) ∧
    (∀ (request : Request) (env : Env) (w : CFWorld) (a : String),
       request.authorization = some a → a ≠ "" →
       jsFalsy (jsSplit a ' ')[1]? = true →
       (fetch request env w).1 = { body := "Invalid API Token.", status := 401 }) ∧
    (∀ (request : Request) (env : Env) (w : CFWorld) (a tok decoded : String),
       request.authorization = some a → a ≠ "" →
       (jsSplit a ' ')[1]? = some tok → tok ≠ "" →
       atob tok = some decoded →
       (decoded.toList.findIdx? (fun c => c = ':') = none ∨ hasControlChar decoded = true) →
       (fetch request env w).1 = { body := "Invalid API Token.", status := 401 }) ∧
    (∀ (request : Request) (a tok decoded : String) (i : Nat),
       request.authorization = some a → a ≠ "" →
       (jsSplit a ' ')[1]? = some tok → tok ≠ "" →
       atob tok = some decoded →
       decoded.toList.findIdx? (fun c => c = ':') = some i →
       hasControlChar decoded = false →
       constructClientOptions request =
         Except.ok { apiEmail := String.mk (decoded.toList.take i)
                     apiToken := String.mk (decoded.toList.drop (i + 1)) }) := by
  refine ⟨?_, ?_, ?_, ?_⟩
  · intro request env w h
    have hco : constructClientOptions request =
        Except.error (WorkerError.httpError 401 "API Token missing.") := by
      simp [constructClientOptions, h, jsFalsy]
    rw [fetch_clientOptions_error request env w _ hco]
    rfl
  · intro request env w a h h2 h3
    have hfa : jsFalsy (some a) = false := by simp [jsFalsy, h2]
    have hco : constructClientOptions request =
        Except.error (WorkerError.httpError 401 "Invalid API Token.") := by
      simp [constructClientOptions, h, hfa, h3]
    rw [fetch_clientOptions_error request env w _ hco]
    rfl
  · intro request env w a tok decoded h h2 h3 h4 h5 h6
    have hfa : jsFalsy (some a) = false := by simp [jsFalsy, h2]
    have hft : jsFalsy (some tok) = false := by simp [jsFalsy, h4]
    simp only [String.toList] at h6
    have hco : constructClientOptions request =
        Except.error (WorkerError.httpError 401 "Invalid API Token.") := by
      rcases h6 with h6 | h6 <;>
        simp [constructClientOptions, h, hfa, h3, hft, h5, h6] <;>
        cases List.findIdx? (fun c => decide (c = ':')) decoded.data <;> simp
    rw [fetch_clientOptions_error request env w _ hco]
    rfl
  · intro request a tok decoded i h h2 h3 h4 h5 h6 h7
    have hfa : jsFalsy (some a) = false := by simp [jsFalsy, h2]
    have hft : jsFalsy (some tok) = false := by simp [jsFalsy, h4]
    simp only [String.toList] at h6
    simp [constructClientOptions, h, hfa, h3, hft, h5, h6, h7, String.toList]

/-- C5 witness: a request with no Authorization header, one with a
space-free header, one whose decoded blob lacks a colon, and one decoding
to "a:b". -/
theorem claim5_witness :
    (fetch
      { authorization := none, cfConnectingIP := none, ipParam := none,
        myipParam := none, hostnamesParam := none, hostnameParam := none }
      { NTFY_URL := none }
      { verifyStatus := Except.ok "active", zonesResult := Except.ok [],
        listRecords := fun _ _ _ => Except.ok [],
        updateResult := fun _ _ => Except.ok (),
        ntfyFetchResult := Except.ok () }).1 =
      { body := "API Token missing.", status := 401 } ∧
    (fetch
      { authorization := some "Basic", cfConnectingIP := none, ipParam := none,
        myipParam := none, hostnamesParam := none, hostnameParam := none }
      { NTFY_URL := none }
      { verifyStatus := Except.ok "active", zonesResult := Except.ok [],
        listRecords := fun _ _ _ => Except.ok [],
        updateResult := fun _ _ => Except.ok (),
        ntfyFetchResult := Except.ok () }).1 =
      { body := "Invalid API Token.", status := 401 } ∧
    (fetch
      { authorization := some "Basic YWI=", cfConnectingIP := none, ipParam := none,
        myipParam := none, hostnamesParam := none, hostnameParam := none }
      { NTFY_URL := none }
      { verifyStatus := Except.ok "active", zonesResult := Except.ok [],
        listRecords := fun _ _ _ => Except.ok [],
        updateResult := fun _ _ => Except.ok (),
        ntfyFetchResult := Except.ok () }).1 =
      { body := "Invalid API Token.", status := 401 } ∧
    constructClientOptions
      { authorization := some "Basic YTpi", cfConnectingIP := none, ipParam := none,
        myipParam := none, hostnamesParam := none, hostnameParam := none } =
      Except.ok { apiEmail := "a", apiToken := "b" } := by
  refine ⟨?_, ?_, ?_, ?_⟩
  · exact claim5.1 _ _ _ rfl
  · exact claim5.2.1 _ _ _ "Basic" rfl (by decide) (by decide)
  · exact claim5.2.2.1 _ _ _ "Basic YWI=" "YWI=" "ab" rfl (by decide) rfl
      (by decide) rfl (Or.inl (by decide))
  · exact claim5.2.2.2 _ "Basic YTpi" "YTpi" "a:b" 1 rfl (by decide) rfl
      (by decide) rfl (by decide) (by decide)

/-- C6: the hostname list comes from the `hostnames` query parameter,
falling back to `hostname`; with neither present (and a resolvable ip,
which is checked first) the request fails with 422 "Missing 'hostname'
parameter."; otherwise the value is split on commas, the pieces trimmed and
empty pieces dropped, and an empty resulting list fails with the distinct
422 "No hostnames provided." -/
theorem claim6 :
    (∀ (request : Request) (ip : String),
       resolveIp request = Except.ok ip →
       request.hostnamesParam = none → request.hostnameParam = none →
       constructDNSRecord request =
         Except.error (WorkerError.httpError 422 "Missing 'hostname' parameter.")) ∧
    (∀ (request : Request) (p : String),
       request.hostnamesParam = some p → p ≠ "" →
       jsOr request.hostnamesParam request.hostnameParam = some p) ∧
    (∀ request : Request, request.hostnamesParam = none →
       jsOr request.hostnamesParam request.hostnameParam = request.hostnameParam) ∧
    (∀ (request : Request) (ip p : String) (recs : List AddressableRecord),
       resolveIp request = Except.ok ip →
       jsOr request.hostnamesParam request.hostnameParam = some p → p ≠ "" →
       constructDNSRecord request = Except.ok recs →
       recs.map (fun rcd => rcd.name) =
         ((jsSplit p ',').map jsTrim).filter (fun s => s != "")) ∧
    (∀ (request : Request) (ip p : String),
       resolveIp request = Except.ok ip →
       jsOr request.hostnamesParam request.hostnameParam = some p → p ≠ "" →
       ((jsSplit p ',').map jsTrim).filter (fun s => s != "") = [] →
       constructDNSRecord request =
         Except.error (WorkerError.httpError 422 "No hostnames provided.")) ∧
    (∀ (request : Request) (env : Env) (w : CFWorld) (co : ClientOptions) (e : WorkerError),
       constructClientOptions request = Except.ok co →
       constructDNSRecord request = Except.error e →
       (fetch request env w).1 = errorResponse e) := by
  refine ⟨?_, ?_, ?_, ?_, ?_, ?_⟩
  · intro request ip hip h1 h2
    simp [constructDNSRecord, hip, resolveHostnames, jsOr, jsFalsy, h1, h2,
      except_ok_bind, except_error_bind]
  · intro request p h hp
    simp [jsOr, jsFalsy, h, hp]
  · intro request h
    simp [jsOr, jsFalsy, h]
  · intro request ip p recs hip hor hp hok
    cases hrh : resolveHostnames request with
    | error e =>
      simp [constructDNSRecord, hip, hrh, except_ok_bind, except_error_bind] at hok
    | ok hs =>
      have hchar := resolveHostnames_char request p hor hp
      rw [hrh] at hchar
      have hhs : hs = ((jsSplit p ',').map jsTrim).filter (fun s => s != "") := by
        by_cases hlen : (((jsSplit p ',').map jsTrim).filter (fun s => s != "")).length = 0
        · rw [if_pos hlen] at hchar; cases hchar
        · rw [if_neg hlen] at hchar
          exact (Except.ok.injEq _ _ ▸ hchar)
      subst hhs
      simp [constructDNSRecord, hip, hrh, except_ok_bind] at hok
      subst hok
      induction ((jsSplit p ',').map jsTrim).filter (fun s => s != "") with
      | nil => rfl
      | cons a l ih => simpa using ih
  · intro request ip p hip hor hp hempty
    have hchar := resolveHostnames_char request p hor hp
    rw [hempty] at hchar
    simp at hchar
    simp [constructDNSRecord, hip, hchar, except_ok_bind, except_error_bind]
  · intro request env w co e h1 h2
    rw [fetch_dnsRecord_error request env w co e h1 h2]

/-- C6 witness: a request with the hostname parameter absent, and one whose
hostname parameter is ",," (empty after split/trim/filter), both with a
valid ip; plus the list characterization on "home.example.com ,
,office.example.com". -/
theorem claim6_witness :
    constructDNSRecord
      { authorization := some "Basic YTpi", cfConnectingIP := none,
        ipParam := some "198.51.100.7", myipParam := none,
        hostnamesParam := none, hostnameParam := none } =
      Except.error (WorkerError.httpError 422 "Missing 'hostname' parameter.") ∧
    jsOr (some "h.example.com") none = some "h.example.com" ∧
    jsOr none (some "h.example.com") = some "h.example.com" ∧
    [({ content := "198.51.100.7", name := "home.example.com", type := "A", ttl := 1 } :
        AddressableRecord),
     { content := "198.51.100.7", name := "office.example.com", type := "A", ttl := 1 }].map
        (fun rcd => rcd.name) =
      ((jsSplit "home.example.com , ,office.example.com" ',').map jsTrim).filter
        (fun s => s != "") ∧
    constructDNSRecord
      { authorization := some "Basic YTpi", cfConnectingIP := none,
        ipParam := some "198.51.100.7", myipParam := none,
        hostnamesParam := some ",,", hostnameParam := none } =
      Except.error (WorkerError.httpError 422 "No hostnames provided.") ∧
    (fetch
      { authorization := some "Basic YTpi", cfConnectingIP := none,
        ipParam := some "198.51.100.7", myipParam := none,
        hostnamesParam := some ",,", hostnameParam := none }
      { NTFY_URL := none }
      { verifyStatus := Except.ok "active", zonesResult := Except.ok [],
        listRecords := fun _ _ _ => Except.ok [],
        updateResult := fun _ _ => Except.ok (),
        ntfyFetchResult := Except.ok () }).1 =
      errorResponse (WorkerError.httpError 422 "No hostnames provided.") := by
  refine ⟨?_, ?_, ?_, ?_, ?_, ?_⟩
  · exact claim6.1 _ "198.51.100.7" (by decide) rfl rfl
  · exact claim6.2.1
      { authorization := none, cfConnectingIP := none,
        ipParam := none, myipParam := none,
        hostnamesParam := some "h.example.com", hostnameParam := none }
      "h.example.com" rfl (by decide)
  · exact claim6.2.2.1
      { authorization := none, cfConnectingIP := none,
        ipParam := none, myipParam := none,
        hostnamesParam := none, hostnameParam := some "h.example.com" } rfl
  · exact claim6.2.2.2.1
      { authorization := some "Basic YTpi", cfConnectingIP := none,
        ipParam := some "198.51.100.7", myipParam := none,
        hostnamesParam := some "home.example.com , ,office.example.com",
        hostnameParam := none }
      "198.51.100.7" "home.example.com , ,office.example.com"
      [{ content := "198.51.100.7", name := "home.example.com", type := "A", ttl := 1 },
       { content := "198.51.100.7", name := "office.example.com", type := "A", ttl := 1 }]
      (by decide) rfl (by decide) rfl
  · exact claim6.2.2.2.2.1 _ "198.51.100.7" ",," (by decide) rfl (by decide) (by decide)
  · exact claim6.2.2.2.2.2 _ _ _ { apiEmail := "a", apiToken := "b" } _ rfl rfl

/-- C7: successful parameter extraction outputs one proposed record per
hostname, in input order, all sharing the resolved ip, each typed A when
the ip contains a dot and AAAA otherwise, with ttl 1. -/
theorem claim7 :
    ∀ (request : Request) (ip p : String),
      resolveIp request = Except.ok ip →
      jsOr request.hostnamesParam request.hostnameParam = some p → p ≠ "" →
      ((jsSplit p ',').map jsTrim).filter (fun s => s != "") ≠ [] →
      constructDNSRecord request = Except.ok
        ((((jsSplit p ',').map jsTrim).filter (fun s => s != "")).map
          (fun hostname =>
            { content := ip, name := hostname,
              type := if includesChar ip '.' then "A" else "AAAA", ttl := 1 })) := by
  intro request ip p hip hor hp hne
  have hchar := resolveHostnames_char request p hor hp
  rw [if_neg (by simpa using hne)] at hchar
  simp [constructDNSRecord, hip, hchar, except_ok_bind]

/-- C7 witness: two hostnames with an IPv4-looking ip give two A records in
order; an ip without a dot gives an AAAA record. -/
theorem claim7_witness :
    constructDNSRecord
      { authorization := some "Basic YTpi", cfConnectingIP := none,
        ipParam := some "198.51.100.7", myipParam := none,
        hostnamesParam := some "home.example.com,office.example.com",
        hostnameParam := none } =
      Except.ok
        [{ content := "198.51.100.7", name := "home.example.com", type := "A", ttl := 1 },
         { content := "198.51.100.7", name := "office.example.com", type := "A", ttl := 1 }] ∧
    constructDNSRecord
      { authorization := some "Basic YTpi", cfConnectingIP := none,
        ipParam := some "2001:db8::1", myipParam := none,
        hostnamesParam := none, hostnameParam := some "home.example.com" } =
      Except.ok
        [{ content := "2001:db8::1", name := "home.example.com", type := "AAAA", ttl := 1 }] := by
  constructor
  · exact claim7 _ "198.51.100.7" "home.example.com,office.example.com"
      (by decide) rfl (by decide) (by decide)
  · exact claim7 _ "2001:db8::1" "home.example.com"
      (by decide) rfl (by decide) (by decide)

/-- C10 (implicit): an Authorization header whose second token is not
decodable base64 makes credential extraction throw a non-HttpError from the
decode, so the response is the generic 500 "Internal Server Error", not the
401 "Invalid API Token." -/
theorem claim10 :
    constructClientOptions
      { authorization := some "Basic !", cfConnectingIP := none, ipParam := none,
        myipParam := none, hostnamesParam := none, hostnameParam := none } =
      Except.error (WorkerError.unexpected "InvalidCharacterError") ∧
    ∀ (env : Env) (w : CFWorld),
      (fetch
        { authorization := some "Basic !", cfConnectingIP := none, ipParam := none,
          myipParam := none, hostnamesParam := none, hostnameParam := none }
        env w).1 = { body := "Internal Server Error", status := 500 } := by
  refine ⟨rfl, ?_⟩
  intro env w
  rw [fetch_clientOptions_error
    { authorization := some "Basic !", cfConnectingIP := none, ipParam := none,
      myipParam := none, hostnamesParam := none, hostnameParam := none }
    env w (WorkerError.unexpected "InvalidCharacterError") rfl]
  rfl

/-! ### Helper lemmas about the orchestrator -/

theorem pushNtfy_eq_ok (message : String) (env : Env) (w : CFWorld) :
    pushNtfy message env w = Except.ok () := by
  unfold pushNtfy
  split
  · rfl
  · cases w.ntfyFetchResult <;> rfl

theorem gatherMatches_ok (w : CFWorld) (newRecord : AddressableRecord)
    (zones : List Zone) (rs : Zone → List ListedRecord)
    (h : ∀ z ∈ zones, w.listRecords z.id newRecord.name newRecord.type = Except.ok (rs z)) :
    gatherMatches w newRecord zones =
      (Except.ok ((zones.map (fun z =>
          ((rs z).filter (fun rec => idTruthy rec.id)).map (fun rec => (rec, z.id)))).flatten),
       zones.map (fun z => CallEvent.listRecords z.id newRecord.name newRecord.type)) := by
  induction zones with
  | nil => rfl
  | cons z zs ih =>
    have hz := h z (List.mem_cons_self z zs)
    have ihz := ih (fun z' hz' => h z' (List.mem_cons_of_mem z hz'))
    simp [gatherMatches, hz, ihz, Except.map]

theorem gatherMatches_no_update (w : CFWorld) (newRecord : AddressableRecord)
    (zones : List Zone) :
    ∀ ev ∈ (gatherMatches w newRecord zones).2, ev.isUpdate = false := by
  induction zones with
  | nil => intro ev h; cases h
  | cons z zs ih =>
    intro ev h
    cases hl : w.listRecords z.id newRecord.name newRecord.type with
    | error e =>
      simp [gatherMatches, hl] at h
      subst h; rfl
    | ok records =>
      simp [gatherMatches, hl] at h
      rcases h with h | h
      · subst h; rfl
      · exact ih ev h

theorem updateLoop_append_ok (w : CFWorld) (env : Env) (zones : List Zone)
    (pre rest : List AddressableRecord)
    (hpre : ∀ p ∈ pre, (recordStep w env zones p).1 = Except.ok ()) :
    updateLoop w env zones (pre ++ rest) =
      ((updateLoop w env zones rest).1,
       (pre.map (fun p => (recordStep w env zones p).2)).flatten ++
         (updateLoop w env zones rest).2) := by
  induction pre with
  | nil => simp
  | cons p ps ih =>
    have hp := hpre p (List.mem_cons_self p ps)
    have ihp := ih (fun q hq => hpre q (List.mem_cons_of_mem p hq))
    cases hs : recordStep w env zones p with
    | mk res t =>
      rw [hs] at hp
      simp at hp
      subst hp
      simp [updateLoop, hs, ihp, List.append_assoc]

theorem updateLoop_ok_iff (w : CFWorld) (env : Env) (zones : List Zone)
    (recs : List AddressableRecord) :
    (updateLoop w env zones recs).1 = Except.ok { body := "OK", status := 200 } ↔
      ∀ r ∈ recs, (recordStep w env zones r).1 = Except.ok () := by
  induction recs with
  | nil => simp [updateLoop]
  | cons r rest ih =>
    cases hs : recordStep w env zones r with
    | mk res t =>
      cases res with
      | error e => simp [updateLoop, hs, List.forall_mem_cons]
      | ok u =>
        cases u
        simp [updateLoop, hs, List.forall_mem_cons, ih]

theorem recordStep_ok_event (w : CFWorld) (env : Env) (zones : List Zone)
    (p : AddressableRecord) (h : (recordStep w env zones p).1 = Except.ok ()) :
    ∃ id zoneId proxied comment,
      CallEvent.updateRecord id zoneId p.content p.name p.type proxied comment ∈
        (recordStep w env zones p).2 := by
  unfold recordStep at h ⊢
  cases hg : gatherMatches w p zones with
  | mk res t =>
    rw [hg] at h
    cases res with
    | error e => simp at h
    | ok ms =>
      match ms with
      | [] => simp at h
      | [(record, zoneId)] =>
        cases hu : w.updateResult zoneId (record.id.getD "") with
        | error e => simp [hu] at h
        | ok v =>
          refine ⟨record.id, zoneId, record.proxied.getD false, record.comment, ?_⟩
          simp [hu, pushNtfy_eq_ok]
      | m1 :: m2 :: rest => simp at h

theorem gatherMatches_ntfy_invariant (w : CFWorld) (u : Except String Unit)
    (newRecord : AddressableRecord) (zones : List Zone) :
    gatherMatches { w with ntfyFetchResult := u } newRecord zones =
      gatherMatches w newRecord zones := by
  induction zones with
  | nil => rfl
  | cons z zs ih =>
    cases hl : w.listRecords z.id newRecord.name newRecord.type with
    | error e => simp [gatherMatches, hl]
    | ok records => simp [gatherMatches, hl, ih]

theorem recordStep_ntfy_invariant (w : CFWorld) (u : Except String Unit) (env : Env)
    (zones : List Zone) (p : AddressableRecord) :
    recordStep { w with ntfyFetchResult := u } env zones p = recordStep w env zones p := by
  unfold recordStep
  rw [gatherMatches_ntfy_invariant]
  cases hg : gatherMatches w p zones with
  | mk res t =>
    cases res with
    | error e => rfl
    | ok ms =>
      match ms with
      | [] => rfl
      | [(record, zoneId)] =>
        cases hu : w.updateResult zoneId (record.id.getD "") with
        | error e => simp [hu]
        | ok v => simp [hu, pushNtfy_eq_ok]
      | m1 :: m2 :: rest => rfl

theorem updateLoop_ntfy_invariant (w : CFWorld) (u : Except String Unit) (env : Env)
    (zones : List Zone) (recs : List AddressableRecord) :
    updateLoop { w with ntfyFetchResult := u } env zones recs =
      updateLoop w env zones recs := by
  induction recs with
  | nil => rfl
  | cons r rest ih =>
    rw [updateLoop, updateLoop, recordStep_ntfy_invariant, ih]

theorem updateHostnames_run (co : ClientOptions) (recs : List AddressableRecord)
    (env : Env) (w : CFWorld) (zones : List Zone)
    (hv : w.verifyStatus = Except.ok "active")
    (hz : w.zonesResult = Except.ok zones) (hne : zones.length ≠ 0) :
    updateHostnames co recs env w =
      ((updateLoop w env zones recs).1,
       CallEvent.verify :: CallEvent.listZones :: (updateLoop w env zones recs).2) := by
  simp [updateHostnames, hv, hz, hne]

/-! ### Claims C1, C2, C3, C8, C9 (the orchestrator) -/

/-- C3: a verify-token result with any status other than "active" makes the
request fail with 401 and body "API Token status: '<status>'" with the
actual status interpolated; any exception raised during verification
instead of a status (e.g. a transport failure) yields the generic 500
"Internal Server Error", not a 401. -/
theorem claim3 :
    (∀ (request : Request) (env : Env) (w : CFWorld) (co : ClientOptions)
       (recs : List AddressableRecord) (status : String),
       constructClientOptions request = Except.ok co →
       constructDNSRecord request = Except.ok recs →
       w.verifyStatus = Except.ok status → status ≠ "active" →
       (fetch request env w).1 =
         { body := "API Token status: '" ++ status ++ "'", status := 401 }) ∧
    (∀ (request : Request) (env : Env) (w : CFWorld) (co : ClientOptions)
       (recs : List AddressableRecord) (msg : String),
       constructClientOptions request = Except.ok co →
       constructDNSRecord request = Except.ok recs →
       w.verifyStatus = Except.error msg →
       (fetch request env w).1 = { body := "Internal Server Error", status := 500 }) := by
  constructor
  · intro request env w co recs status h1 h2 hv hs
    have hu : updateHostnames co recs env w =
        (Except.error (WorkerError.httpError 401 ("API Token status: '" ++ status ++ "'")),
         [CallEvent.verify]) := by
      simp [updateHostnames, hv, hs]
    rw [fetch_update_result request env w co recs h1 h2, hu]
    rfl
  · intro request env w co recs msg h1 h2 hv
    have hu : updateHostnames co recs env w =
        (Except.error (WorkerError.unexpected msg), [CallEvent.verify]) := by
      simp [updateHostnames, hv]
    rw [fetch_update_result request env w co recs h1 h2, hu]
    rfl

/-- C3 witness: a parseable request against a world whose verify call
returns status "expired" yields the interpolated 401; against a world whose
verify call throws a transport error it yields the generic 500. -/
theorem claim3_witness :
    (fetch
      { authorization := some "Basic YTpi", cfConnectingIP := none,
        ipParam := some "198.51.100.7", myipParam := none,
        hostnamesParam := some "home.example.com", hostnameParam := none }
      { NTFY_URL := none }
      { verifyStatus := Except.ok "expired", zonesResult := Except.ok [],
        listRecords := fun _ _ _ => Except.ok [],
        updateResult := fun _ _ => Except.ok (),
        ntfyFetchResult := Except.ok () }).1 =
      { body := "API Token status: 'expired'", status := 401 } ∧
    (fetch
      { authorization := some "Basic YTpi", cfConnectingIP := none,
        ipParam := some "198.51.100.7", myipParam := none,
        hostnamesParam := some "home.example.com", hostnameParam := none }
      { NTFY_URL := none }
      { verifyStatus := Except.error "connection reset", zonesResult := Except.ok [],
        listRecords := fun _ _ _ => Except.ok [],
        updateResult := fun _ _ => Except.ok (),
        ntfyFetchResult := Except.ok () }).1 =
      { body := "Internal Server Error", status := 500 } := by
  constructor
  · exact claim3.1 _ _ _ { apiEmail := "a", apiToken := "b" }
      [{ content := "198.51.100.7", name := "home.example.com", type := "A", ttl := 1 }]
      "expired" rfl rfl rfl (by decide)
  · exact claim3.2 _ _ _ { apiEmail := "a", apiToken := "b" }
      [{ content := "198.51.100.7", name := "home.example.com", type := "A", ttl := 1 }]
      "connection reset" rfl rfl rfl

/-- C1 (amended): for a request that reaches record resolution, the
candidate set for a proposed record is built by listing records filtered by
exact name and exact type in every resolved zone and aggregating, across
zones, the matches that carry a record id (id-less records are dropped); an
empty candidate set fails with 400 and the no-match body, more than one
candidate fails with 400 and the multiple-match body, the two firing
conditions exclude each other for a given candidate set, and an update call
happens only when exactly one candidate exists; an empty zone list fails
earlier with 400 "No zones available in API Token." -/
theorem claim1 :
    (∀ (w : CFWorld) (newRecord : AddressableRecord) (zones : List Zone)
       (rs : Zone → List ListedRecord),
       (∀ z ∈ zones, w.listRecords z.id newRecord.name newRecord.type = Except.ok (rs z)) →
       gatherMatches w newRecord zones =
         (Except.ok ((zones.map (fun z =>
             ((rs z).filter (fun rec => idTruthy rec.id)).map (fun rec => (rec, z.id)))).flatten),
          zones.map (fun z => CallEvent.listRecords z.id newRecord.name newRecord.type))) ∧
    (∀ (w : CFWorld) (env : Env) (zones : List Zone) (newRecord : AddressableRecord)
       (t : List CallEvent),
       gatherMatches w newRecord zones = (Except.ok [], t) →
       recordStep w env zones newRecord =
         (Except.error (WorkerError.httpError 400
           ("No matching record found for '" ++ newRecord.name ++ "'. Create it manually first.")), t)) ∧
    (∀ (w : CFWorld) (env : Env) (zones : List Zone) (newRecord : AddressableRecord)
       (m1 m2 : ListedRecord × String) (ms : List (ListedRecord × String)) (t : List CallEvent),
       gatherMatches w newRecord zones = (Except.ok (m1 :: m2 :: ms), t) →
       recordStep w env zones newRecord =
         (Except.error (WorkerError.httpError 400
           ("Multiple matching records found for '" ++ newRecord.name ++ "'. Specify a unique hostname per zone.")), t)) ∧
    (∀ (w : CFWorld) (newRecord : AddressableRecord) (zones : List Zone)
       (cs : List (ListedRecord × String)) (t : List CallEvent),
       gatherMatches w newRecord zones = (Except.ok cs, t) →
       ¬(cs = [] ∧ cs.length > 1)) ∧
    (∀ (w : CFWorld) (env : Env) (zones : List Zone) (newRecord : AddressableRecord)
       (cs : List (ListedRecord × String)) (t : List CallEvent) (ev : CallEvent),
       gatherMatches w newRecord zones = (Except.ok cs, t) →
       ev ∈ (recordStep w env zones newRecord).2 → ev.isUpdate = true →
       cs.length = 1) ∧
    (∀ (w : CFWorld) (co : ClientOptions) (recs : List AddressableRecord) (env : Env),
       w.verifyStatus = Except.ok "active" → w.zonesResult = Except.ok [] →
       updateHostnames co recs env w =
         (Except.error (WorkerError.httpError 400 "No zones available in API Token."),
          [CallEvent.verify, CallEvent.listZones])) ∧
    (∀ n : String, errorResponse (WorkerError.httpError 400 n) = { body := n, status := 400 }) := by
  refine ⟨?_, ?_, ?_, ?_, ?_, ?_, ?_⟩
  · exact fun w newRecord zones rs h => gatherMatches_ok w newRecord zones rs h
  · intro w env zones newRecord t hg
    unfold recordStep
    rw [hg]
  · intro w env zones newRecord m1 m2 ms t hg
    unfold recordStep
    rw [hg]
  · rintro w newRecord zones cs t hg ⟨rfl, hlen⟩
    simp at hlen
  · intro w env zones newRecord cs t ev hg hev hup
    have htrace : ∀ e ∈ (gatherMatches w newRecord zones).2, CallEvent.isUpdate e = false :=
      gatherMatches_no_update w newRecord zones
    rw [hg] at htrace
    match cs, hg with
    | [], hg =>
      exfalso
      have h2 : (recordStep w env zones newRecord).2 = t := by
        unfold recordStep; rw [hg]
      rw [h2] at hev
      rw [htrace ev hev] at hup
      cases hup
    | [m], hg => rfl
    | m1 :: m2 :: ms, hg =>
      exfalso
      have h2 : (recordStep w env zones newRecord).2 = t := by
        unfold recordStep; rw [hg]
      rw [h2] at hev
      rw [htrace ev hev] at hup
      cases hup
  · intro w co recs env hv hz
    simp [updateHostnames, hv, hz]
  · intro n
    rfl

/-- C1 counterexample: the claim's candidate set ("the matches aggregated
across zones") is wrong when a listed record matches by name and type but
carries no id: the code drops it, so with two matching records of which one
is id-less the request succeeds with 200 "OK" instead of failing with the
claimed multiple-match 400. -/
theorem claim1_counterexample :
    (fetch
      { authorization := some "Basic YTpi", cfConnectingIP := none,
        ipParam := some "198.51.100.7", myipParam := none,
        hostnamesParam := some "home.example.com", hostnameParam := none }
      { NTFY_URL := none }
      { verifyStatus := Except.ok "active",
        zonesResult := Except.ok [{ id := "z1" }],
        listRecords := fun _ _ _ => Except.ok
          [{ id := some "rid1", name := "home.example.com", type := "A",
             content := "203.0.113.5", proxied := some false, comment := none },
           { id := none, name := "home.example.com", type := "A",
             content := "203.0.113.5", proxied := none, comment := none }],
        updateResult := fun _ _ => Except.ok (),
        ntfyFetchResult := Except.ok () }).1 = { body := "OK", status := 200 } ∧
    (fetch
      { authorization := some "Basic YTpi", cfConnectingIP := none,
        ipParam := some "198.51.100.7", myipParam := none,
        hostnamesParam := some "home.example.com", hostnameParam := none }
      { NTFY_URL := none }
      { verifyStatus := Except.ok "active",
        zonesResult := Except.ok [{ id := "z1" }],
        listRecords := fun _ _ _ => Except.ok
          [{ id := some "rid1", name := "home.example.com", type := "A",
             content := "203.0.113.5", proxied := some false, comment := none },
           { id := none, name := "home.example.com", type := "A",
             content := "203.0.113.5", proxied := none, comment := none }],
        updateResult := fun _ _ => Except.ok (),
        ntfyFetchResult := Except.ok () }).1 ≠
      { body := "Multiple matching records found for 'home.example.com'. Specify a unique hostname per zone.",
        status := 400 } ∧
    ([{ id := some "rid1", name := "home.example.com", type := "A",
        content := "203.0.113.5", proxied := some false, comment := none },
      { id := none, name := "home.example.com", type := "A",
        content := "203.0.113.5", proxied := none, comment := none }] :
      List ListedRecord).length = 2 ∧
    ({ id := none, name := "home.example.com", type := "A", content := "203.0.113.5",
       proxied := none, comment := none } : ListedRecord).name = "home.example.com" ∧
    ({ id := none, name := "home.example.com", type := "A", content := "203.0.113.5",
       proxied := none, comment := none } : ListedRecord).type = "A" := by
  exact ⟨rfl, by decide, rfl, rfl, rfl⟩

/-- C1 witness: concrete worlds exercise the aggregation equation, the
no-match 400, the multiple-match 400, the exclusivity of the two firing
conditions, the update-only-on-unique-candidate property, and the
empty-zone-list 400. -/
theorem claim1_witness :
    gatherMatches
      { verifyStatus := Except.ok "active", zonesResult := Except.ok [{ id := "z1" }],
        listRecords := fun _ _ _ => Except.ok
          [{ id := some "rid1", name := "home.example.com", type := "A",
             content := "203.0.113.5", proxied := some false, comment := none }],
        updateResult := fun _ _ => Except.ok (), ntfyFetchResult := Except.ok () }
      { content := "198.51.100.7", name := "home.example.com", type := "A", ttl := 1 }
      [{ id := "z1" }] =
      (Except.ok (([{ id := "z1" }].map (fun z =>
          (([{ id := some "rid1", name := "home.example.com", type := "A",
               content := "203.0.113.5", proxied := some false, comment := none }] :
            List ListedRecord).filter (fun rec => idTruthy rec.id)).map
            (fun rec => (rec, Zone.id z)))).flatten),
       [{ id := "z1" }].map (fun z =>
         CallEvent.listRecords (Zone.id z) "home.example.com" "A")) ∧
    recordStep
      { verifyStatus := Except.ok "active", zonesResult := Except.ok [{ id := "z1" }],
        listRecords := fun _ _ _ => Except.ok [],
        updateResult := fun _ _ => Except.ok (), ntfyFetchResult := Except.ok () }
      { NTFY_URL := none } [{ id := "z1" }]
      { content := "198.51.100.7", name := "home.example.com", type := "A", ttl := 1 } =
      (Except.error (WorkerError.httpError 400
        "No matching record found for 'home.example.com'. Create it manually first."),
       [CallEvent.listRecords "z1" "home.example.com" "A"]) ∧
    recordStep
      { verifyStatus := Except.ok "active", zonesResult := Except.ok [{ id := "z1" }],
        listRecords := fun _ _ _ => Except.ok
          [{ id := some "rid1", name := "home.example.com", type := "A",
             content := "203.0.113.5", proxied := some false, comment := none },
           { id := some "rid2", name := "home.example.com", type := "A",
             content := "203.0.113.6", proxied := some true, comment := some "x" }],
        updateResult := fun _ _ => Except.ok (), ntfyFetchResult := Except.ok () }
      { NTFY_URL := none } [{ id := "z1" }]
      { content := "198.51.100.7", name := "home.example.com", type := "A", ttl := 1 } =
      (Except.error (WorkerError.httpError 400
        "Multiple matching records found for 'home.example.com'. Specify a unique hostname per zone."),
       [CallEvent.listRecords "z1" "home.example.com" "A"]) ∧
    ¬(([] : List (ListedRecord × String)) = [] ∧
      ([] : List (ListedRecord × String)).length > 1) ∧
    ([({ id := some "rid1", name := "home.example.com", type := "A",
         content := "203.0.113.5", proxied := some false, comment := none }, "z1")] :
      List (ListedRecord × String)).length = 1 ∧
    updateHostnames { apiEmail := "a", apiToken := "b" }
      [{ content := "198.51.100.7", name := "home.example.com", type := "A", ttl := 1 }]
      { NTFY_URL := none }
      { verifyStatus := Except.ok "active", zonesResult := Except.ok [],
        listRecords := fun _ _ _ => Except.ok [],
        updateResult := fun _ _ => Except.ok (), ntfyFetchResult := Except.ok () } =
      (Except.error (WorkerError.httpError 400 "No zones available in API Token."),
       [CallEvent.verify, CallEvent.listZones]) ∧
    errorResponse (WorkerError.httpError 400 "No zones available in API Token.") =
      { body := "No zones available in API Token.", status := 400 } := by
  refine ⟨?_, ?_, ?_, ?_, ?_, ?_, ?_⟩
  · exact claim1.1 _ _ _
      (fun _ => [{ id := some "rid1", name := "home.example.com", type := "A",
                   content := "203.0.113.5", proxied := some false, comment := none }])
      (by intro z hz; rfl)
  · exact claim1.2.1 _ _ _ _ [CallEvent.listRecords "z1" "home.example.com" "A"] rfl
  · exact claim1.2.2.1 _ _ _ _
      ({ id := some "rid1", name := "home.example.com", type := "A",
         content := "203.0.113.5", proxied := some false, comment := none }, "z1")
      ({ id := some "rid2", name := "home.example.com", type := "A",
         content := "203.0.113.6", proxied := some true, comment := some "x" }, "z1")
      [] [CallEvent.listRecords "z1" "home.example.com" "A"] rfl
  · exact claim1.2.2.2.1
      { verifyStatus := Except.ok "active", zonesResult := Except.ok [{ id := "z1" }],
        listRecords := fun _ _ _ => Except.ok [],
        updateResult := fun _ _ => Except.ok (), ntfyFetchResult := Except.ok () }
      { content := "198.51.100.7", name := "home.example.com", type := "A", ttl := 1 }
      [{ id := "z1" }] []
      [CallEvent.listRecords "z1" "home.example.com" "A"] rfl
  · exact claim1.2.2.2.2.1
      { verifyStatus := Except.ok "active", zonesResult := Except.ok [{ id := "z1" }],
        listRecords := fun _ _ _ => Except.ok
          [{ id := some "rid1", name := "home.example.com", type := "A",
             content := "203.0.113.5", proxied := some false, comment := none }],
        updateResult := fun _ _ => Except.ok (), ntfyFetchResult := Except.ok () }
      { NTFY_URL := none } [{ id := "z1" }]
      { content := "198.51.100.7", name := "home.example.com", type := "A", ttl := 1 }
      [({ id := some "rid1", name := "home.example.com", type := "A",
          content := "203.0.113.5", proxied := some false, comment := none }, "z1")]
      [CallEvent.listRecords "z1" "home.example.com" "A"]
      (CallEvent.updateRecord (some "rid1") "z1" "198.51.100.7" "home.example.com" "A"
        false none)
      rfl (by decide) rfl
  · exact claim1.2.2.2.2.2.1 _ { apiEmail := "a", apiToken := "b" }
      [{ content := "198.51.100.7", name := "home.example.com", type := "A", ttl := 1 }]
      { NTFY_URL := none } rfl rfl
  · exact claim1.2.2.2.2.2.2 "No zones available in API Token."

/-- C2: hostnames are processed strictly in input order; a failing record
aborts the loop at once with that error, the call trace is exactly the
traces of the earlier successful records followed by the failing record's
trace (so no record-list or update call for later hostnames, and the
already-performed update calls of earlier hostnames remain in the trace,
never compensated); the loop yields the 200 "OK" response precisely when
every record's step succeeds, in which case the whole request responds 200
"OK". -/
theorem claim2 :
    (∀ (w : CFWorld) (env : Env) (zones : List Zone)
       (pre : List AddressableRecord) (newRecord : AddressableRecord)
       (post : List AddressableRecord) (e : WorkerError) (t : List CallEvent),
       (∀ p ∈ pre, (recordStep w env zones p).1 = Except.ok ()) →
       recordStep w env zones newRecord = (Except.error e, t) →
       updateLoop w env zones (pre ++ newRecord :: post) =
         (Except.error e,
          (pre.map (fun p => (recordStep w env zones p).2)).flatten ++ t)) ∧
    (∀ (w : CFWorld) (env : Env) (zones : List Zone)
       (pre : List AddressableRecord) (newRecord : AddressableRecord)
       (post : List AddressableRecord) (e : WorkerError) (t : List CallEvent),
       (∀ p ∈ pre, (recordStep w env zones p).1 = Except.ok ()) →
       recordStep w env zones newRecord = (Except.error e, t) →
       ∀ p ∈ pre, ∃ id zoneId proxied comment,
         CallEvent.updateRecord id zoneId p.content p.name p.type proxied comment ∈
           (updateLoop w env zones (pre ++ newRecord :: post)).2) ∧
    (∀ (w : CFWorld) (env : Env) (zones : List Zone) (recs : List AddressableRecord),
       (updateLoop w env zones recs).1 = Except.ok { body := "OK", status := 200 } ↔
         ∀ r ∈ recs, (recordStep w env zones r).1 = Except.ok ()) ∧
    (∀ (request : Request) (env : Env) (w : CFWorld) (co : ClientOptions)
       (recs : List AddressableRecord) (zones : List Zone),
       constructClientOptions request = Except.ok co →
       constructDNSRecord request = Except.ok recs →
       w.verifyStatus = Except.ok "active" → w.zonesResult = Except.ok zones →
       zones.length ≠ 0 →
       (∀ r ∈ recs, (recordStep w env zones r).1 = Except.ok ()) →
       (fetch request env w).1 = { body := "OK", status := 200 }) := by
  refine ⟨?_, ?_, ?_, ?_⟩
  · intro w env zones pre newRecord post e t hpre hr
    rw [updateLoop_append_ok w env zones pre (newRecord :: post) hpre]
    have hstep : updateLoop w env zones (newRecord :: post) = (Except.error e, t) := by
      rw [updateLoop, hr]
    rw [hstep]
  · intro w env zones pre newRecord post e t hpre hr p hp
    obtain ⟨id, zoneId, proxied, comment, hev⟩ :=
      recordStep_ok_event w env zones p (hpre p hp)
    refine ⟨id, zoneId, proxied, comment, ?_⟩
    rw [updateLoop_append_ok w env zones pre (newRecord :: post) hpre]
    refine List.mem_append_left _ ?_
    exact List.mem_flatten.mpr ⟨(recordStep w env zones p).2, List.mem_map_of_mem _ hp, hev⟩
  · exact fun w env zones recs => updateLoop_ok_iff w env zones recs
  · intro request env w co recs zones h1 h2 hv hz hne hall
    rw [fetch_update_result request env w co recs h1 h2,
      updateHostnames_run co recs env w zones hv hz hne,
      (updateLoop_ok_iff w env zones recs).mpr hall]

/-- C2 witness: with hostname a.example.com matching uniquely and
b.example.com matching nothing, the loop over [a, b, c] stops at b with the
no-match 400 and a trace containing a's update but nothing for c; a request
whose single hostname matches uniquely responds 200 "OK". -/
theorem claim2_witness :
    updateLoop
      { verifyStatus := Except.ok "active", zonesResult := Except.ok [{ id := "z1" }],
        listRecords := fun _ name _ =>
          if name = "a.example.com" then
            Except.ok [{ id := some "ridA", name := "a.example.com", type := "A",
                         content := "203.0.113.5", proxied := some false, comment := none }]
          else Except.ok [],
        updateResult := fun _ _ => Except.ok (), ntfyFetchResult := Except.ok () }
      { NTFY_URL := none } [{ id := "z1" }]
      ([{ content := "198.51.100.7", name := "a.example.com", type := "A", ttl := 1 }] ++
        { content := "198.51.100.7", name := "b.example.com", type := "A", ttl := 1 } ::
        [{ content := "198.51.100.7", name := "c.example.com", type := "A", ttl := 1 }]) =
      (Except.error (WorkerError.httpError 400
        "No matching record found for 'b.example.com'. Create it manually first."),
       (([{ content := "198.51.100.7", name := "a.example.com", type := "A", ttl := 1 }] :
          List AddressableRecord).map (fun p =>
            (recordStep
              { verifyStatus := Except.ok "active", zonesResult := Except.ok [{ id := "z1" }],
                listRecords := fun _ name _ =>
                  if name = "a.example.com" then
                    Except.ok [{ id := some "ridA", name := "a.example.com", type := "A",
                                 content := "203.0.113.5", proxied := some false, comment := none }]
                  else Except.ok [],
                updateResult := fun _ _ => Except.ok (), ntfyFetchResult := Except.ok () }
              { NTFY_URL := none } [{ id := "z1" }] p).2)).flatten ++
        [CallEvent.listRecords "z1" "b.example.com" "A"]) ∧
    (fetch
      { authorization := some "Basic YTpi", cfConnectingIP := none,
        ipParam := some "198.51.100.7", myipParam := none,
        hostnamesParam := some "a.example.com", hostnameParam := none }
      { NTFY_URL := none }
      { verifyStatus := Except.ok "active", zonesResult := Except.ok [{ id := "z1" }],
        listRecords := fun _ name _ =>
          if name = "a.example.com" then
            Except.ok [{ id := some "ridA", name := "a.example.com", type := "A",
                         content := "203.0.113.5", proxied := some false, comment := none }]
          else Except.ok [],
        updateResult := fun _ _ => Except.ok (), ntfyFetchResult := Except.ok () }).1 =
      { body := "OK", status := 200 } := by
  constructor
  · exact claim2.1 _ _ _
      [{ content := "198.51.100.7", name := "a.example.com", type := "A", ttl := 1 }]
      { content := "198.51.100.7", name := "b.example.com", type := "A", ttl := 1 }
      [{ content := "198.51.100.7", name := "c.example.com", type := "A", ttl := 1 }]
      (WorkerError.httpError 400
        "No matching record found for 'b.example.com'. Create it manually first.")
      [CallEvent.listRecords "z1" "b.example.com" "A"]
      (by decide) rfl
  · exact claim2.2.2.2 _ _ _ { apiEmail := "a", apiToken := "b" }
      [{ content := "198.51.100.7", name := "a.example.com", type := "A", ttl := 1 }]
      [{ id := "z1" }] rfl rfl rfl rfl (by decide) (by decide)

/-- C8: with exactly one candidate, the step's only update call targets that
record's id within its zone, sets content to the proposed record's ip,
passes the candidate's proxied flag (false when absent) and its comment
unchanged, and keeps the proposed record's name and type; no other update
call is made. -/
theorem claim8 :
    ∀ (w : CFWorld) (env : Env) (zones : List Zone) (newRecord : AddressableRecord)
      (record : ListedRecord) (zoneId : String) (t : List CallEvent),
      gatherMatches w newRecord zones = (Except.ok [(record, zoneId)], t) →
      (recordStep w env zones newRecord).2.filter CallEvent.isUpdate =
        [CallEvent.updateRecord record.id zoneId newRecord.content newRecord.name
          newRecord.type (record.proxied.getD false) record.comment] := by
  intro w env zones newRecord record zoneId t hg
  have hnu : t.filter CallEvent.isUpdate = [] := by
    rw [List.filter_eq_nil_iff]
    intro a ha
    have h := gatherMatches_no_update w newRecord zones a (by rw [hg]; exact ha)
    simp [h]
  unfold recordStep
  rw [hg]
  cases hu : w.updateResult zoneId (record.id.getD "") with
  | error e => simp [hu, List.filter_append, hnu, CallEvent.isUpdate]
  | ok v => simp [hu, pushNtfy_eq_ok, List.filter_append, hnu, CallEvent.isUpdate]

/-- C8 witness: a uniquely matching record with proxied absent and a comment
yields exactly one update call, with proxied defaulted to false and the
comment passed through. -/
theorem claim8_witness :
    (recordStep
      { verifyStatus := Except.ok "active", zonesResult := Except.ok [{ id := "z1" }],
        listRecords := fun _ _ _ => Except.ok
          [{ id := some "ridA", name := "a.example.com", type := "A",
             content := "203.0.113.5", proxied := none, comment := some "managed" }],
        updateResult := fun _ _ => Except.ok (), ntfyFetchResult := Except.ok () }
      { NTFY_URL := none } [{ id := "z1" }]
      { content := "198.51.100.7", name := "a.example.com", type := "A", ttl := 1 }).2.filter
      CallEvent.isUpdate =
      [CallEvent.updateRecord (some "ridA") "z1" "198.51.100.7" "a.example.com" "A"
        false (some "managed")] := by
  exact claim8 _ _ _ _
    { id := some "ridA", name := "a.example.com", type := "A",
      content := "203.0.113.5", proxied := none, comment := some "managed" }
    "z1" [CallEvent.listRecords "z1" "a.example.com" "A"] rfl

/-- C9: the notifier never throws into its caller (it returns normally both
when NTFY_URL is unset and when the notification fetch fails), and a
request whose record steps all succeed responds 200 "OK" whatever the
notification fetch does. -/
theorem claim9 :
    (∀ (message : String) (env : Env) (w : CFWorld),
       pushNtfy message env w = Except.ok ()) ∧
    (∀ (request : Request) (env : Env) (w : CFWorld) (u : Except String Unit)
       (co : ClientOptions) (recs : List AddressableRecord) (zones : List Zone),
       constructClientOptions request = Except.ok co →
       constructDNSRecord request = Except.ok recs →
       w.verifyStatus = Except.ok "active" → w.zonesResult = Except.ok zones →
       zones.length ≠ 0 →
       (∀ r ∈ recs, (recordStep w env zones r).1 = Except.ok ()) →
       (fetch request env { w with ntfyFetchResult := u }).1 =
         { body := "OK", status := 200 }) := by
  constructor
  · exact fun message env w => pushNtfy_eq_ok message env w
  · intro request env w u co recs zones h1 h2 hv hz hne hall
    have hv' : ({ w with ntfyFetchResult := u } : CFWorld).verifyStatus =
        Except.ok "active" := hv
    have hz' : ({ w with ntfyFetchResult := u } : CFWorld).zonesResult =
        Except.ok zones := hz
    rw [fetch_update_result request env { w with ntfyFetchResult := u } co recs h1 h2,
      updateHostnames_run co recs env { w with ntfyFetchResult := u } zones hv' hz' hne,
      updateLoop_ntfy_invariant,
      (updateLoop_ok_iff w env zones recs).mpr hall]

/-- C9 witness: pushNtfy returns normally with NTFY_URL unset and with a
failing notification fetch; a uniquely matching request responds 200 "OK"
both when the notification fetch fails and when it succeeds, with NTFY_URL
configured. -/
theorem claim9_witness :
    pushNtfy "msg" { NTFY_URL := none }
      { verifyStatus := Except.ok "active", zonesResult := Except.ok [],
        listRecords := fun _ _ _ => Except.ok [],
        updateResult := fun _ _ => Except.ok (),
        ntfyFetchResult := Except.ok () } = Except.ok () ∧
    pushNtfy "msg" { NTFY_URL := some "https://ntfy.example/ddns" }
      { verifyStatus := Except.ok "active", zonesResult := Except.ok [],
        listRecords := fun _ _ _ => Except.ok [],
        updateResult := fun _ _ => Except.ok (),
        ntfyFetchResult := Except.error "ntfy down" } = Except.ok () ∧
    (fetch
      { authorization := some "Basic YTpi", cfConnectingIP := none,
        ipParam := some "198.51.100.7", myipParam := none,
        hostnamesParam := some "a.example.com", hostnameParam := none }
      { NTFY_URL := some "https://ntfy.example/ddns" }
      { ({ verifyStatus := Except.ok "active", zonesResult := Except.ok [{ id := "z1" }],
           listRecords := fun _ _ _ => Except.ok
             [{ id := some "ridA", name := "a.example.com", type := "A",
                content := "203.0.113.5", proxied := some false, comment := none }],
           updateResult := fun _ _ => Except.ok (),
           ntfyFetchResult := Except.ok () } : CFWorld) with
        ntfyFetchResult := Except.error "ntfy down" }).1 =
      { body := "OK", status := 200 } ∧
    (fetch
      { authorization := some "Basic YTpi", cfConnectingIP := none,
        ipParam := some "198.51.100.7", myipParam := none,
        hostnamesParam := some "a.example.com", hostnameParam := none }
      { NTFY_URL := some "https://ntfy.example/ddns" }
      { ({ verifyStatus := Except.ok "active", zonesResult := Except.ok [{ id := "z1" }],
           listRecords := fun _ _ _ => Except.ok
             [{ id := some "ridA", name := "a.example.com", type := "A",
                content := "203.0.113.5", proxied := some false, comment := none }],
           updateResult := fun _ _ => Except.ok (),
           ntfyFetchResult := Except.ok () } : CFWorld) with
        ntfyFetchResult := Except.ok () }).1 =
      { body := "OK", status := 200 } := by
  refine ⟨?_, ?_, ?_, ?_⟩
  · exact claim9.1 "msg" _ _
  · exact claim9.1 "msg" _ _
  · exact claim9.2
      { authorization := some "Basic YTpi", cfConnectingIP := none,
        ipParam := some "198.51.100.7", myipParam := none,
        hostnamesParam := some "a.example.com", hostnameParam := none }
      { NTFY_URL := some "https://ntfy.example/ddns" }
      { verifyStatus := Except.ok "active", zonesResult := Except.ok [{ id := "z1" }],
        listRecords := fun _ _ _ => Except.ok
          [{ id := some "ridA", name := "a.example.com", type := "A",
             content := "203.0.113.5", proxied := some false, comment := none }],
        updateResult := fun _ _ => Except.ok (), ntfyFetchResult := Except.ok () }
      (Except.error "ntfy down") { apiEmail := "a", apiToken := "b" }
      [{ content := "198.51.100.7", name := "a.example.com", type := "A", ttl := 1 }]
      [{ id := "z1" }] rfl rfl rfl rfl (by decide) (by decide)
  · exact claim9.2
      { authorization := some "Basic YTpi", cfConnectingIP := none,
        ipParam := some "198.51.100.7", myipParam := none,
        hostnamesParam := some "a.example.com", hostnameParam := none }
      { NTFY_URL := some "https://ntfy.example/ddns" }
      { verifyStatus := Except.ok "active", zonesResult := Except.ok [{ id := "z1" }],
        listRecords := fun _ _ _ => Except.ok
          [{ id := some "ridA", name := "a.example.com", type := "A",
             content := "203.0.113.5", proxied := some false, comment := none }],
        updateResult := fun _ _ => Except.ok (), ntfyFetchResult := Except.ok () }
      (Except.ok ()) { apiEmail := "a", apiToken := "b" }
      [{ content := "198.51.100.7", name := "a.example.com", type := "A", ttl := 1 }]
      [{ id := "z1" }] rfl rfl rfl rfl (by decide) (by decide)
